import Mathlib

/-!
Verification of the GlobalPay fraud risk decisioning engine.

This file gives a shallow embedding, in Lean 4, of the fraud-detection
service of the GlobalPay-Gateway repository:

* `services/fraud-detection/internal/models/fraud.go` (data model),
* `services/fraud-detection/internal/handler/fraud_handler.go`
  (the `FraudEngine` rule pipeline: `AnalyzeTransaction` and the six
  `check*` rule evaluators, `calculateRiskLevel`, `makeDecision`),
* `services/fraud-detection/internal/service/ml_model.go`
  (the logistic-regression `MLModel`: `TrainModel`, `Predict`,
  `EvaluateModel`, `SaveModel`, `LoadModel`, `LoadPretrainedModel`),

and proves properties of the embedded definitions.

Modelling conventions:

* Go `float64` values are embedded as exact rationals (`ℚ`).  The engine's
  scores are Go `int`, embedded as `ℤ`.
* The repository (`FraudRepository`) and the wall clock are external
  collaborators; their observable outcomes are collected in an `Env` record,
  so each fallible lookup is an `Except`-valued field of the environment.
* The transcendental sigmoid `1/(1+exp(-x))` cannot be computed in exact
  rational arithmetic, so every model operation that evaluates the
  activation takes it as an explicit function parameter `sig : ℚ → ℚ`.
* Go maps `map[string]float64` are embedded as association lists
  `List (String × ℚ)`; reads of a missing key default to the Go zero value.
-/

namespace GlobalPay

/-- Risk level enumeration from `models/fraud.go` (`low`/`medium`/`high`). -/
inductive RiskLevel
  | low
  | medium
  | high
deriving DecidableEq

/-- Decision enumeration from `models/fraud.go` (`approve`/`review`/`block`). -/
inductive Decision
  | approve
  | review
  | block
deriving DecidableEq

/-- Inbound request, from `models/fraud.go` `FraudCheckRequest`. -/
structure FraudCheckRequest where
  transactionID : String
  amount : ℚ
  currency : String
  customerEmail : String
  country : String
  cardLast4 : String
  deviceFingerprint : String
  ipAddress : String
deriving DecidableEq

/-- Per-rule outcome, from `models/fraud.go` `RuleResult`. -/
structure RuleResult where
  ruleName : String
  triggered : Bool
  score : Int
  description : String
deriving DecidableEq

/-- Response, from `models/fraud.go` `FraudCheckResponse`.  The Go struct
also carries a `Timestamp time.Time` field that is set once from the wall
clock and never read by the engine; it is not modelled.  The Go zero value
of `Decision` is the empty string; the field is always overwritten before
the response is returned, and the embedding initialises it to `approve`. -/
structure FraudCheckResponse where
  transactionID : String
  score : Int
  riskLevel : RiskLevel
  decision : Decision
  flags : List String
  rules : List RuleResult
deriving DecidableEq

/-- External collaborators of the engine: the outcome of each
`FraudRepository` lookup (all of which may fail), the local-clock hour read
by `checkTimePattern` (`time.Now().Hour()`), and the outcome of the
`SaveFraudCheck` persistence call. -/
structure Env where
  countRecentTransactions : String → Except String Int
  getRecentLocations : String → Except String (List String)
  isBlacklisted : String → String → Except String Bool
  isKnownDevice : String → String → Except String Bool
  hour : Int
  saveFraudCheck : Except String Unit

/-- `checkVelocity` from `fraud_engine.go`: thresholds on the count of the
customer's transactions in the trailing hour.  On a lookup error the Go
function returns before touching the response. -/
def checkVelocity (env : Env) (req : FraudCheckRequest)
    (resp : FraudCheckResponse) : Except String FraudCheckResponse :=
  match env.countRecentTransactions req.customerEmail with
  | .error e => .error e
  | .ok count =>
    let ruleResult : RuleResult :=
      { ruleName := "velocity_check", triggered := false, score := 0,
        description := "Transaction count in last hour: " ++ toString count }
    if count > 10 then
      .ok { resp with
              flags := resp.flags ++ ["high_velocity"],
              score := resp.score + 40,
              rules := resp.rules ++ [{ ruleResult with triggered := true, score := 40 }] }
    else if count > 5 then
      .ok { resp with
              flags := resp.flags ++ ["moderate_velocity"],
              score := resp.score + 20,
              rules := resp.rules ++ [{ ruleResult with triggered := true, score := 20 }] }
    else
      .ok { resp with rules := resp.rules ++ [ruleResult] }

/-- The reference-currency amount of `checkAmountThreshold`: the non-USD
branch is the source's placeholder conversion `req.Amount * 1.0`. -/
def amountUSD (req : FraudCheckRequest) : ℚ :=
  if req.currency ≠ "USD" then req.amount * 1 else req.amount

/-- `checkAmountThreshold` from `fraud_engine.go`. -/
def checkAmountThreshold (_env : Env) (req : FraudCheckRequest)
    (resp : FraudCheckResponse) : Except String FraudCheckResponse :=
  let ruleResult : RuleResult :=
    { ruleName := "amount_threshold", triggered := false, score := 0,
      description := "Transaction amount: " ++ toString req.amount ++ " " ++ req.currency }
  if amountUSD req > 10000 then
    .ok { resp with
            flags := resp.flags ++ ["large_amount"],
            score := resp.score + 30,
            rules := resp.rules ++ [{ ruleResult with triggered := true, score := 30 }] }
  else if amountUSD req > 5000 then
    .ok { resp with
            flags := resp.flags ++ ["elevated_amount"],
            score := resp.score + 15,
            rules := resp.rules ++ [{ ruleResult with triggered := true, score := 15 }] }
  else
    .ok { resp with rules := resp.rules ++ [ruleResult] }

/-- The hard-coded high-risk country set of `checkGeolocation`. -/
def highRiskCountries (c : String) : Bool :=
  c == "XX" || c == "YY"

/-- `checkGeolocation` from `fraud_engine.go`: a new-location branch (only
evaluated when the location history is non-empty) and a high-risk-country
branch; both may trigger on one request, each adding its own score. -/
def checkGeolocation (env : Env) (req : FraudCheckRequest)
    (resp : FraudCheckResponse) : Except String FraudCheckResponse :=
  let ruleResult : RuleResult :=
    { ruleName := "geolocation_check", triggered := false, score := 0,
      description := "Country: " ++ req.country }
  match env.getRecentLocations req.customerEmail with
  | .error e => .error e
  | .ok recentLocations =>
    let isNewLocation := recentLocations.all (fun loc => loc != req.country)
    let step1 :=
      if recentLocations.length > 0 && isNewLocation then
        ({ ruleResult with triggered := true, score := 25 },
         { resp with
             flags := resp.flags ++ ["new_location"], score := resp.score + 25 })
      else (ruleResult, resp)
    let step2 :=
      if highRiskCountries req.country then
        ({ step1.1 with triggered := true, score := 35 },
         { step1.2 with
             flags := step1.2.flags ++ ["high_risk_country"],
             score := step1.2.score + 35 })
      else step1
    .ok { step2.2 with rules := step2.2.rules ++ [step2.1] }

/-- `checkBlacklist` from `fraud_engine.go`: a blacklist hit overwrites the
accumulated score with exactly 100 (`resp.Score = 100`, not `+=`). -/
def checkBlacklist (env : Env) (req : FraudCheckRequest)
    (resp : FraudCheckResponse) : Except String FraudCheckResponse :=
  let ruleResult : RuleResult :=
    { ruleName := "blacklist_check", triggered := false, score := 0,
      description := "Checking blacklist status" }
  match env.isBlacklisted req.customerEmail req.cardLast4 with
  | .error e => .error e
  | .ok isBlacklistedRes =>
    if isBlacklistedRes then
      .ok { resp with
              flags := resp.flags ++ ["blacklisted"],
              score := 100,
              rules := resp.rules ++ [{ ruleResult with triggered := true, score := 100 }] }
    else
      .ok { resp with rules := resp.rules ++ [ruleResult] }

/-- `checkTimePattern` from `fraud_engine.go`: local hour in `[2,5]` adds
10.  `time.Now().Hour()` is the `hour` field of the environment. -/
def checkTimePattern (env : Env) (_req : FraudCheckRequest)
    (resp : FraudCheckResponse) : Except String FraudCheckResponse :=
  let ruleResult : RuleResult :=
    { ruleName := "time_pattern", triggered := false, score := 0,
      description := "Transaction hour: " ++ toString env.hour }
  let hour := env.hour
  if hour ≥ 2 ∧ hour ≤ 5 then
    .ok { resp with
            flags := resp.flags ++ ["unusual_hour"],
            score := resp.score + 10,
            rules := resp.rules ++ [{ ruleResult with triggered := true, score := 10 }] }
  else
    .ok { resp with rules := resp.rules ++ [ruleResult] }

/-- `checkDeviceFingerprint` from `fraud_engine.go`: with a non-empty
fingerprint, an unknown device adds 15; the lookup error returns before the
rule entry is appended. -/
def checkDeviceFingerprint (env : Env) (req : FraudCheckRequest)
    (resp : FraudCheckResponse) : Except String FraudCheckResponse :=
  let ruleResult : RuleResult :=
    { ruleName := "device_fingerprint", triggered := false, score := 0,
      description := "Device fingerprint analysis" }
  if req.deviceFingerprint ≠ "" then
    match env.isKnownDevice req.customerEmail req.deviceFingerprint with
    | .error e => .error e
    | .ok isKnownDeviceRes =>
      if !isKnownDeviceRes then
        .ok { resp with
                flags := resp.flags ++ ["new_device"],
                score := resp.score + 15,
                rules := resp.rules ++ [{ ruleResult with triggered := true, score := 15 }] }
      else
        .ok { resp with rules := resp.rules ++ [ruleResult] }
  else
    .ok { resp with rules := resp.rules ++ [ruleResult] }

/-- `calculateRiskLevel` from `fraud_engine.go`. -/
def calculateRiskLevel (score : Int) : RiskLevel :=
  if score ≥ 70 then .high
  else if score ≥ 40 then .medium
  else .low

/-- `makeDecision` from `fraud_engine.go`. -/
def makeDecision (riskLevel : RiskLevel) (score : Int) : Decision :=
  match riskLevel with
  | .high => if score ≥ 90 then .block else .review
  | .medium => .review
  | .low => .approve

/-- The ordered rule list of `AnalyzeTransaction`. -/
def rulePipeline :
    List (Env → FraudCheckRequest → FraudCheckResponse → Except String FraudCheckResponse) :=
  [checkVelocity, checkAmountThreshold, checkGeolocation,
   checkBlacklist, checkTimePattern, checkDeviceFingerprint]

/-- One iteration of the rule loop of `AnalyzeTransaction`: a rule error is
only logged and the response is left as it was before the rule ran. -/
def applyRule
    (rule : Env → FraudCheckRequest → FraudCheckResponse → Except String FraudCheckResponse)
    (env : Env) (req : FraudCheckRequest) (resp : FraudCheckResponse) :
    FraudCheckResponse :=
  match rule env req resp with
  | .ok r => r
  | .error _ => resp

/-- The initial response value built at the top of `AnalyzeTransaction`. -/
def initResponse (req : FraudCheckRequest) : FraudCheckResponse :=
  { transactionID := req.transactionID, score := 0, riskLevel := .low,
    decision := .approve, flags := [], rules := [] }

/-- `AnalyzeTransaction` from `fraud_engine.go`: runs the six rules in
order (rule errors logged, not propagated), derives risk level and
decision, persists the result (persistence errors logged, not propagated;
the alert webhook is logging only), and returns `(response, nil)` — its
single `return` statement. -/
def analyzeTransaction (env : Env) (req : FraudCheckRequest) :
    Except String FraudCheckResponse :=
  let response := initResponse req
  let response := rulePipeline.foldl (fun resp rule => applyRule rule env req resp) response
  let response := { response with riskLevel := calculateRiskLevel response.score }
  let response := { response with decision := makeDecision response.riskLevel response.score }
  match env.saveFraudCheck with
  | .ok _ => .ok response
  | .error _ => .ok response

/-- Logistic-regression model from `ml_model.go` `MLModel`.  The weight map
`map[string]float64` is an association list. -/
structure MLModel where
  weights : List (String × ℚ)
  bias : ℚ
  learningRate : ℚ
  trained : Bool
  version : String
deriving DecidableEq

/-- Go map read `m[k]`: the value of the first matching key, if present. -/
def lookupWeight (w : List (String × ℚ)) (k : String) : Option ℚ :=
  (w.find? (fun p => p.1 == k)).map Prod.snd

/-- Go map write `g[k] += v` on a map whose missing keys read as 0. -/
def addGrad (g : List (String × ℚ)) (k : String) (v : ℚ) : List (String × ℚ) :=
  match lookupWeight g k with
  | some _ => g.map (fun p => if p.1 == k then (p.1, p.2 + v) else p)
  | none => g ++ [(k, v)]

/-- `NewMLModel` from `ml_model.go`: untrained, all weights zero. -/
def NewMLModel : MLModel :=
  { weights := [("amount", 0), ("velocity", 0), ("new_location", 0),
                ("unusual_hour", 0), ("new_device", 0)],
    bias := 0, learningRate := 0.01, trained := false, version := "1.0.0" }

/-- `LoadPretrainedModel` from `ml_model.go`: the fixed calibrated default. -/
def LoadPretrainedModel : MLModel :=
  { weights := [("amount", 0.35), ("velocity", 0.28), ("new_location", 0.18),
                ("unusual_hour", 0.12), ("new_device", 0.07)],
    bias := -0.45, learningRate := 0.01, trained := true, version := "1.0.0" }

/-- `Predict` from `ml_model.go`: `bias + Σ weight[f]·value[f]` over the
features present in both the vector and the model, through the sigmoid,
scaled by 100.  `sig` stands for the Go `sigmoid` (see file header). -/
def Predict (sig : ℚ → ℚ) (m : MLModel) (features : List (String × ℚ)) : ℚ :=
  let score := features.foldl
    (fun acc fv =>
      match lookupWeight m.weights fv.1 with
      | some w => acc + w * fv.2
      | none => acc)
    m.bias
  sig score * 100

/-- The gradient accumulation of one mini-batch of `TrainModel`: for the
batch positions `js` (into the shuffled `indices`), sum the per-feature
gradients `(prediction−label)·value` and the bias gradient
`(prediction−label)`.  The loss and accuracy accumulators of the source
only feed `fmt.Printf` progress logging and are not modelled. -/
def batchGradients (sig : ℚ → ℚ) (m : MLModel)
    (trainingData : List (List (String × ℚ))) (labels : List ℚ)
    (indices : List Nat) (js : List Nat) : List (String × ℚ) × ℚ :=
  js.foldl
    (fun acc j =>
      let idx := indices.getD j 0
      let features := trainingData.getD idx []
      let actual := labels.getD idx 0
      let prediction := Predict sig m features / 100
      let errorTerm := prediction - actual
      let grads := features.foldl (fun g fv => addGrad g fv.1 (errorTerm * fv.2)) acc.1
      (grads, acc.2 + errorTerm))
    ([], 0)

/-- The weight/bias update of one mini-batch of `TrainModel`: positions
`start ≤ j < stop` of the shuffled order; each model weight is moved by
`-learningRate·gradient/batchLen` when a gradient was accumulated for it. -/
def applyBatch (sig : ℚ → ℚ) (m : MLModel)
    (trainingData : List (List (String × ℚ))) (labels : List ℚ)
    (indices : List Nat) (start stop : Nat) : MLModel :=
  let js := (List.range (stop - start)).map (fun k => start + k)
  let acc := batchGradients sig m trainingData labels indices js
  let batchLen : ℚ := ((stop - start : Nat) : ℚ)
  { m with
      weights := m.weights.map
        (fun p =>
          match lookupWeight acc.1 p.1 with
          | some grad => (p.1, p.2 - m.learningRate * (grad / batchLen))
          | none => p),
      bias := m.bias - m.learningRate * (acc.2 / batchLen) }

/-- One epoch of `TrainModel`: mini-batches `[i, min(i+batchSize, n))` for
`i = 0, batchSize, 2·batchSize, …` against one shuffled order `indices`. -/
def runEpoch (sig : ℚ → ℚ) (trainingData : List (List (String × ℚ)))
    (labels : List ℚ) (batchSize : Nat) (m : MLModel) (indices : List Nat) :
    MLModel :=
  let n := trainingData.length
  let numBatches := (n + batchSize - 1) / batchSize
  (List.range numBatches).foldl
    (fun acc b =>
      let start := b * batchSize
      let stop := min (start + batchSize) n
      applyBatch sig acc trainingData labels indices start stop)
    m

/-- `TrainModel` from `ml_model.go`: validates the input sizes, then runs
100 epochs of mini-batch gradient descent with batch size 32, and finally
sets the `trained` flag.  The Go receiver `m` is mutated in place; the
embedding passes the receiver state explicitly and returns its final
state.  `perms` is the stream of per-epoch shuffles `rand.Perm(n)` that
the source draws from the global `math/rand` source — an input of the
embedding because that source is outside the function's control. -/
def TrainModel (sig : ℚ → ℚ) (m : MLModel)
    (trainingData : List (List (String × ℚ))) (labels : List ℚ)
    (perms : Nat → List Nat) : Except String MLModel :=
  if trainingData.length = 0 ∨ trainingData.length ≠ labels.length then
    .error ("invalid training data: got " ++ toString trainingData.length ++
      " samples and " ++ toString labels.length ++ " labels")
  else
    let epochs := 100
    let batchSize := 32
    let final := (List.range epochs).foldl
      (fun acc epoch => runEpoch sig trainingData labels batchSize acc (perms epoch)) m
    .ok { final with trained := true }

/-- The payload of the model blob written by `SaveModel` (the anonymous
struct serialised to JSON).  `time.Time` is abstracted to an integer
timestamp.  Go's `encoding/json` round-trips `float64` values exactly
(shortest-representation encoding), so the numeric fields are carried
unchanged. -/
structure ModelData where
  weights : List (String × ℚ)
  bias : ℚ
  learningRate : ℚ
  trained : Bool
  version : String
  savedAt : Int
deriving DecidableEq

/-- The three observable states of the model file read by `LoadModel`:
`os.Open` fails (missing), `json.Decode` fails (corrupt), or the decoded
payload (valid). -/
inductive ModelFile
  | missing
  | corrupt
  | valid (data : ModelData)
deriving DecidableEq

/-- `SaveModel` from `ml_model.go`, restricted to the successful path: the
blob written for a model (the `os.Create`/`Encode` failure paths return
the I/O error and write nothing usable, and are not needed by the claims). -/
def SaveModel (m : MLModel) (savedAt : Int) : ModelData :=
  { weights := m.weights, bias := m.bias, learningRate := m.learningRate,
    trained := m.trained, version := m.version, savedAt := savedAt }

/-- `LoadModel` from `ml_model.go`: a missing file falls back to
`LoadPretrainedModel` with a nil error; a decode failure is returned as an
error; a decoded payload populates a model from the stored fields. -/
def LoadModel (file : ModelFile) : Except String MLModel :=
  match file with
  | .missing => .ok LoadPretrainedModel
  | .corrupt => .error "failed to decode model"
  | .valid data =>
    .ok { weights := data.weights, bias := data.bias,
          learningRate := data.learningRate, trained := data.trained,
          version := data.version }

/-- Go `float64` division as used for the unguarded `accuracy` quotient of
`EvaluateModel`: when the divisor is 0 the numerator there is also 0 and
the Go result is `NaN`, modelled as `none`. -/
def goDiv (a b : ℚ) : Option ℚ :=
  if b = 0 then none else some (a / b)

/-- Metrics record returned by `EvaluateModel` (the `map[string]float64`
of the source, with one field per key).  The confusion-matrix counters are
Go `float64` counters holding exact small integers, embedded as `ℕ`. -/
structure EvaluationMetrics where
  accuracy : Option ℚ
  precision : ℚ
  recallScore : ℚ
  f1Score : ℚ
  truePositives : Nat
  falsePositives : Nat
  trueNegatives : Nat
  falseNegatives : Nat
deriving DecidableEq

/-- One iteration of the classification loop of `EvaluateModel`:
thresholds the prediction and the label at 0.5 and bumps the matching
confusion-matrix counter. -/
def classifyStep (sig : ℚ → ℚ) (m : MLModel) (acc : Nat × Nat × Nat × Nat)
    (p : List (String × ℚ) × ℚ) : Nat × Nat × Nat × Nat :=
  let prediction := Predict sig m p.1 / 100
  let predicted := prediction > 0.5
  let actual := p.2 > 0.5
  if predicted ∧ actual then (acc.1 + 1, acc.2.1, acc.2.2.1, acc.2.2.2)
  else if predicted ∧ ¬actual then (acc.1, acc.2.1 + 1, acc.2.2.1, acc.2.2.2)
  else if ¬predicted ∧ ¬actual then (acc.1, acc.2.1, acc.2.2.1 + 1, acc.2.2.2)
  else (acc.1, acc.2.1, acc.2.2.1, acc.2.2.2 + 1)

/-- The classification loop of `EvaluateModel`.  The Go loop reads
`labels[i]` for `i` below `len(testData)` (and panics when `labels` is
shorter); the embedding walks the zipped lists, which agrees whenever
`labels` is at least as long as `testData`. -/
def confusionCounts (sig : ℚ → ℚ) (m : MLModel)
    (testData : List (List (String × ℚ))) (labels : List ℚ) :
    Nat × Nat × Nat × Nat :=
  (testData.zip labels).foldl (classifyStep sig m) (0, 0, 0, 0)

/-- `EvaluateModel` from `ml_model.go`: accuracy is the unguarded quotient
`(TP+TN)/len(testData)`; precision, recall and F1 carry the source's
explicit positive-denominator guards and default to 0. -/
def EvaluateModel (sig : ℚ → ℚ) (m : MLModel)
    (testData : List (List (String × ℚ))) (labels : List ℚ) :
    EvaluationMetrics :=
  let c := confusionCounts sig m testData labels
  let tp : ℚ := c.1
  let fp : ℚ := c.2.1
  let fnc : ℚ := c.2.2.2
  let accuracy := goDiv (tp + (c.2.2.1 : ℚ)) (testData.length : ℚ)
  let precision := if tp + fp > 0 then tp / (tp + fp) else 0
  let recallScore := if tp + fnc > 0 then tp / (tp + fnc) else 0
  let f1Score :=
    if precision + recallScore > 0 then 2 * (precision * recallScore) / (precision + recallScore) else 0
  { accuracy := accuracy, precision := precision, recallScore := recallScore,
    f1Score := f1Score, truePositives := c.1, falsePositives := c.2.1,
    trueNegatives := c.2.2.1, falseNegatives := c.2.2.2 }

/-! ### Characterisation of the rule pipeline

Each rule evaluator either fails (leaving the response untouched, because
every evaluator returns its error before writing to the response) or
appends a fixed set of flags and rule entries and moves the score by an
amount determined by the environment and the request alone.  The following
definitions name those contributions and the lemmas prove that `applyRule`
of each evaluator acts exactly that way. -/

/-- Score contribution of `checkVelocity` (0 when the lookup fails). -/
def velocityDelta (env : Env) (req : FraudCheckRequest) : Int :=
  match env.countRecentTransactions req.customerEmail with
  | .error _ => 0
  | .ok count => if count > 10 then 40 else if count > 5 then 20 else 0

/-- Flags appended by `checkVelocity`. -/
def velocityFlags (env : Env) (req : FraudCheckRequest) : List String :=
  match env.countRecentTransactions req.customerEmail with
  | .error _ => []
  | .ok count =>
    if count > 10 then ["high_velocity"]
    else if count > 5 then ["moderate_velocity"]
    else []

/-- Rule entries appended by `checkVelocity` (none when the lookup fails). -/
def velocityRules (env : Env) (req : FraudCheckRequest) : List RuleResult :=
  match env.countRecentTransactions req.customerEmail with
  | .error _ => []
  | .ok count =>
    [{ ruleName := "velocity_check",
       triggered := decide (count > 10) || decide (count > 5),
       score := if count > 10 then 40 else if count > 5 then 20 else 0,
       description := "Transaction count in last hour: " ++ toString count }]

/-- Score contribution of `checkAmountThreshold`. -/
def amountDelta (req : FraudCheckRequest) : Int :=
  if amountUSD req > 10000 then 30 else if amountUSD req > 5000 then 15 else 0

/-- Flags appended by `checkAmountThreshold`. -/
def amountFlags (req : FraudCheckRequest) : List String :=
  if amountUSD req > 10000 then ["large_amount"]
  else if amountUSD req > 5000 then ["elevated_amount"]
  else []

/-- Rule entries appended by `checkAmountThreshold`. -/
def amountRules (req : FraudCheckRequest) : List RuleResult :=
  [{ ruleName := "amount_threshold",
     triggered := decide (amountUSD req > 10000) || decide (amountUSD req > 5000),
     score := if amountUSD req > 10000 then 30 else if amountUSD req > 5000 then 15 else 0,
     description := "Transaction amount: " ++ toString req.amount ++ " " ++ req.currency }]

/-- Whether the new-location branch of `checkGeolocation` triggers. -/
def geoNewLocation (locs : List String) (req : FraudCheckRequest) : Bool :=
  decide (locs.length > 0) && locs.all (fun loc => loc != req.country)

/-- Score contribution of `checkGeolocation` (0 when the lookup fails). -/
def geoDelta (env : Env) (req : FraudCheckRequest) : Int :=
  match env.getRecentLocations req.customerEmail with
  | .error _ => 0
  | .ok locs =>
    (if geoNewLocation locs req then 25 else 0) +
      (if highRiskCountries req.country then 35 else 0)

/-- Flags appended by `checkGeolocation`. -/
def geoFlags (env : Env) (req : FraudCheckRequest) : List String :=
  match env.getRecentLocations req.customerEmail with
  | .error _ => []
  | .ok locs =>
    (if geoNewLocation locs req then ["new_location"] else []) ++
      (if highRiskCountries req.country then ["high_risk_country"] else [])

/-- Rule entries appended by `checkGeolocation` (none when the lookup
fails).  The entry's own score keeps only the last branch written, as in
the source. -/
def geoRules (env : Env) (req : FraudCheckRequest) : List RuleResult :=
  match env.getRecentLocations req.customerEmail with
  | .error _ => []
  | .ok locs =>
    [{ ruleName := "geolocation_check",
       triggered := geoNewLocation locs req || highRiskCountries req.country,
       score := if highRiskCountries req.country then 35
                else if geoNewLocation locs req then 25 else 0,
       description := "Country: " ++ req.country }]

/-- Whether the blacklist lookup succeeded and reported a hit. -/
def blacklistHit (env : Env) (req : FraudCheckRequest) : Bool :=
  match env.isBlacklisted req.customerEmail req.cardLast4 with
  | .error _ => false
  | .ok b => b

/-- Flags appended by `checkBlacklist`. -/
def blacklistFlags (env : Env) (req : FraudCheckRequest) : List String :=
  if blacklistHit env req then ["blacklisted"] else []

/-- Rule entries appended by `checkBlacklist` (none when the lookup fails). -/
def blacklistRules (env : Env) (req : FraudCheckRequest) : List RuleResult :=
  match env.isBlacklisted req.customerEmail req.cardLast4 with
  | .error _ => []
  | .ok b =>
    [{ ruleName := "blacklist_check", triggered := b,
       score := if b then 100 else 0,
       description := "Checking blacklist status" }]

/-- Score contribution of `checkTimePattern`. -/
def timeDelta (env : Env) : Int :=
  if env.hour ≥ 2 ∧ env.hour ≤ 5 then 10 else 0

/-- Flags appended by `checkTimePattern`. -/
def timeFlags (env : Env) : List String :=
  if env.hour ≥ 2 ∧ env.hour ≤ 5 then ["unusual_hour"] else []

/-- Rule entry appended by `checkTimePattern` (it never fails). -/
def timeRules (env : Env) : List RuleResult :=
  [{ ruleName := "time_pattern",
     triggered := decide (env.hour ≥ 2 ∧ env.hour ≤ 5),
     score := if env.hour ≥ 2 ∧ env.hour ≤ 5 then 10 else 0,
     description := "Transaction hour: " ++ toString env.hour }]

/-- Score contribution of `checkDeviceFingerprint` (0 on an empty
fingerprint or a failed lookup). -/
def deviceDelta (env : Env) (req : FraudCheckRequest) : Int :=
  if req.deviceFingerprint = "" then 0
  else
    match env.isKnownDevice req.customerEmail req.deviceFingerprint with
    | .error _ => 0
    | .ok known => if known then 0 else 15

/-- Flags appended by `checkDeviceFingerprint`. -/
def deviceFlags (env : Env) (req : FraudCheckRequest) : List String :=
  if req.deviceFingerprint = "" then []
  else
    match env.isKnownDevice req.customerEmail req.deviceFingerprint with
    | .error _ => []
    | .ok known => if known then [] else ["new_device"]

/-- Rule entries appended by `checkDeviceFingerprint` (none when the
lookup fails). -/
def deviceRules (env : Env) (req : FraudCheckRequest) : List RuleResult :=
  if req.deviceFingerprint = "" then
    [{ ruleName := "device_fingerprint", triggered := false, score := 0,
       description := "Device fingerprint analysis" }]
  else
    match env.isKnownDevice req.customerEmail req.deviceFingerprint with
    | .error _ => []
    | .ok known =>
      [{ ruleName := "device_fingerprint", triggered := !known,
         score := if known then 0 else 15,
         description := "Device fingerprint analysis" }]

theorem applyRule_checkVelocity (env : Env) (req : FraudCheckRequest)
    (resp : FraudCheckResponse) :
    applyRule checkVelocity env req resp =
      { resp with
          score := resp.score + velocityDelta env req,
          flags := resp.flags ++ velocityFlags env req,
          rules := resp.rules ++ velocityRules env req } := by
  unfold applyRule checkVelocity velocityDelta velocityFlags velocityRules
  cases h : env.countRecentTransactions req.customerEmail <;> simp
  split_ifs <;> simp_all <;> omega

theorem applyRule_checkAmountThreshold (env : Env) (req : FraudCheckRequest)
    (resp : FraudCheckResponse) :
    applyRule checkAmountThreshold env req resp =
      { resp with
          score := resp.score + amountDelta req,
          flags := resp.flags ++ amountFlags req,
          rules := resp.rules ++ amountRules req } := by
  unfold applyRule checkAmountThreshold amountDelta amountFlags amountRules
  split_ifs <;> simp_all

theorem applyRule_checkGeolocation (env : Env) (req : FraudCheckRequest)
    (resp : FraudCheckResponse) :
    applyRule checkGeolocation env req resp =
      { resp with
          score := resp.score + geoDelta env req,
          flags := resp.flags ++ geoFlags env req,
          rules := resp.rules ++ geoRules env req } := by
  unfold applyRule checkGeolocation geoDelta geoFlags geoRules geoNewLocation
  cases h : env.getRecentLocations req.customerEmail <;> simp
  split_ifs <;> simp_all <;> omega

theorem applyRule_checkBlacklist (env : Env) (req : FraudCheckRequest)
    (resp : FraudCheckResponse) :
    applyRule checkBlacklist env req resp =
      { resp with
          score := if blacklistHit env req then 100 else resp.score,
          flags := resp.flags ++ blacklistFlags env req,
          rules := resp.rules ++ blacklistRules env req } := by
  unfold applyRule checkBlacklist blacklistHit blacklistFlags blacklistRules
  cases h : env.isBlacklisted req.customerEmail req.cardLast4 <;> simp
  · unfold blacklistHit
    rw [h]
    simp
  · rename_i b
    cases b <;> simp <;> unfold blacklistHit <;> rw [h] <;> simp

theorem applyRule_checkTimePattern (env : Env) (req : FraudCheckRequest)
    (resp : FraudCheckResponse) :
    applyRule checkTimePattern env req resp =
      { resp with
          score := resp.score + timeDelta env,
          flags := resp.flags ++ timeFlags env,
          rules := resp.rules ++ timeRules env } := by
  unfold applyRule checkTimePattern timeDelta timeFlags timeRules
  by_cases h : env.hour ≥ 2 ∧ env.hour ≤ 5 <;> simp [h]

theorem applyRule_checkDeviceFingerprint (env : Env) (req : FraudCheckRequest)
    (resp : FraudCheckResponse) :
    applyRule checkDeviceFingerprint env req resp =
      { resp with
          score := resp.score + deviceDelta env req,
          flags := resp.flags ++ deviceFlags env req,
          rules := resp.rules ++ deviceRules env req } := by
  unfold applyRule checkDeviceFingerprint deviceDelta deviceFlags deviceRules
  by_cases hfp : req.deviceFingerprint = ""
  · simp [hfp]
  · cases h : env.isKnownDevice req.customerEmail req.deviceFingerprint <;>
      simp [hfp, h]
    rename_i known
    cases known <;> simp

/-- Total score of one pipeline run: the blacklist hit overwrites the
first three contributions, after which the time-pattern and device rules
still add theirs. -/
def pipelineScore (env : Env) (req : FraudCheckRequest) : Int :=
  (if blacklistHit env req then 100
   else velocityDelta env req + amountDelta req + geoDelta env req) +
    timeDelta env + deviceDelta env req

/-- All flags of one pipeline run, in evaluator order. -/
def pipelineFlags (env : Env) (req : FraudCheckRequest) : List String :=
  velocityFlags env req ++ amountFlags req ++ geoFlags env req ++
    blacklistFlags env req ++ timeFlags env ++ deviceFlags env req

/-- All rule entries of one pipeline run, in evaluator order. -/
def pipelineRules (env : Env) (req : FraudCheckRequest) : List RuleResult :=
  velocityRules env req ++ amountRules req ++ geoRules env req ++
    blacklistRules env req ++ timeRules env ++ deviceRules env req

/-- Symbolic execution of `AnalyzeTransaction`: it always succeeds and
returns the response assembled from the six rules' contributions. -/
theorem analyzeTransaction_eq (env : Env) (req : FraudCheckRequest) :
    analyzeTransaction env req =
      .ok { transactionID := req.transactionID,
            score := pipelineScore env req,
            riskLevel := calculateRiskLevel (pipelineScore env req),
            decision := makeDecision (calculateRiskLevel (pipelineScore env req))
              (pipelineScore env req),
            flags := pipelineFlags env req,
            rules := pipelineRules env req } := by
  unfold analyzeTransaction rulePipeline initResponse
  simp only [List.foldl_cons, List.foldl_nil, applyRule_checkVelocity,
    applyRule_checkAmountThreshold, applyRule_checkGeolocation,
    applyRule_checkBlacklist, applyRule_checkTimePattern,
    applyRule_checkDeviceFingerprint]
  have hscore :
      (if blacklistHit env req then (100 : Int)
       else 0 + velocityDelta env req + amountDelta req + geoDelta env req) +
        timeDelta env + deviceDelta env req = pipelineScore env req := by
    unfold pipelineScore
    split_ifs <;> omega
  cases hs : env.saveFraudCheck <;>
    simp [pipelineFlags, pipelineRules, ← hscore, List.append_assoc]

theorem velocityDelta_bounds (env : Env) (req : FraudCheckRequest) :
    0 ≤ velocityDelta env req ∧ velocityDelta env req ≤ 40 := by
  unfold velocityDelta
  split
  · omega
  · split_ifs <;> omega

theorem amountDelta_bounds (req : FraudCheckRequest) :
    0 ≤ amountDelta req ∧ amountDelta req ≤ 30 := by
  unfold amountDelta
  split_ifs <;> omega

theorem geoDelta_bounds (env : Env) (req : FraudCheckRequest) :
    0 ≤ geoDelta env req ∧ geoDelta env req ≤ 60 := by
  unfold geoDelta
  split
  · omega
  · split_ifs <;> omega

theorem timeDelta_bounds (env : Env) :
    0 ≤ timeDelta env ∧ timeDelta env ≤ 10 := by
  unfold timeDelta
  split_ifs <;> omega

theorem deviceDelta_bounds (env : Env) (req : FraudCheckRequest) :
    0 ≤ deviceDelta env req ∧ deviceDelta env req ≤ 15 := by
  unfold deviceDelta
  split
  · omega
  · split
    · omega
    · split_ifs <;> omega

theorem pipelineScore_bounds (env : Env) (req : FraudCheckRequest) :
    0 ≤ pipelineScore env req ∧ pipelineScore env req ≤ 155 := by
  have h1 := velocityDelta_bounds env req
  have h2 := amountDelta_bounds req
  have h3 := geoDelta_bounds env req
  have h4 := timeDelta_bounds env
  have h5 := deviceDelta_bounds env req
  unfold pipelineScore
  split_ifs <;> omega

theorem name_of_mem_velocityRules (env : Env) (req : FraudCheckRequest)
    (rr : RuleResult) (h : rr ∈ velocityRules env req) :
    rr.ruleName = "velocity_check" := by
  unfold velocityRules at h
  split at h <;> simp at h
  simp [h]

theorem name_of_mem_amountRules (req : FraudCheckRequest)
    (rr : RuleResult) (h : rr ∈ amountRules req) :
    rr.ruleName = "amount_threshold" := by
  unfold amountRules at h
  simp at h
  simp [h]

theorem name_of_mem_geoRules (env : Env) (req : FraudCheckRequest)
    (rr : RuleResult) (h : rr ∈ geoRules env req) :
    rr.ruleName = "geolocation_check" := by
  unfold geoRules at h
  split at h <;> simp at h
  simp [h]

theorem name_of_mem_blacklistRules (env : Env) (req : FraudCheckRequest)
    (rr : RuleResult) (h : rr ∈ blacklistRules env req) :
    rr.ruleName = "blacklist_check" := by
  unfold blacklistRules at h
  split at h <;> simp at h
  simp [h]

theorem name_of_mem_timeRules (env : Env)
    (rr : RuleResult) (h : rr ∈ timeRules env) :
    rr.ruleName = "time_pattern" := by
  unfold timeRules at h
  simp at h
  simp [h]

theorem name_of_mem_deviceRules (env : Env) (req : FraudCheckRequest)
    (rr : RuleResult) (h : rr ∈ deviceRules env req) :
    rr.ruleName = "device_fingerprint" := by
  unfold deviceRules at h
  split at h
  · simp at h
    simp [h]
  · split at h <;> simp at h
    simp [h]

/-! ### Concrete scenarios used by the counterexamples and witnesses -/

/-- A request with a large USD amount, a high-risk country and a device
fingerprint. -/
def reqStd : FraudCheckRequest :=
  { transactionID := "tx-1", amount := 20000, currency := "USD",
    customerEmail := "alice@example.com", country := "XX",
    cardLast4 := "1234", deviceFingerprint := "dev-1",
    ipAddress := "198.51.100.7" }

/-- An environment in which every rule triggers: 11 recent transactions,
an unknown location history entry, an unusual hour, an unknown device —
and no blacklist hit. -/
def envAllTrigger : Env :=
  { countRecentTransactions := fun _ => .ok 11,
    getRecentLocations := fun _ => .ok ["US"],
    isBlacklisted := fun _ _ => .ok false,
    isKnownDevice := fun _ _ => .ok false,
    hour := 3,
    saveFraudCheck := .ok () }

/-- An environment with a blacklist hit during an unusual hour (the device
is known, the other rules are quiet). -/
def envBlacklisted : Env :=
  { countRecentTransactions := fun _ => .ok 0,
    getRecentLocations := fun _ => .ok [],
    isBlacklisted := fun _ _ => .ok true,
    isKnownDevice := fun _ _ => .ok true,
    hour := 3,
    saveFraudCheck := .ok () }

/-- An environment whose velocity lookup times out while everything else
answers normally. -/
def envVelocityDown : Env :=
  { countRecentTransactions := fun _ => .error "timeout",
    getRecentLocations := fun _ => .ok [],
    isBlacklisted := fun _ _ => .ok false,
    isKnownDevice := fun _ _ => .ok true,
    hour := 12,
    saveFraudCheck := .ok () }

/-! ### Claims about the rule pipeline -/

/-- C1 (counterexample): with every rule triggering, the returned score is
155, so the response score is not bounded by 100 — `AnalyzeTransaction`
never clamps it. -/
theorem score_not_clamped_to_100 :
    ¬ (∀ r, analyzeTransaction envAllTrigger reqStd = .ok r →
        0 ≤ r.score ∧ r.score ≤ 100) := by
  intro h
  have heq := analyzeTransaction_eq envAllTrigger reqStd
  have hb : pipelineScore envAllTrigger reqStd ≤ 100 := (h _ heq).2
  have h155 : pipelineScore envAllTrigger reqStd = 155 := rfl
  omega

/-- C1 (amended): for every request the fraud check succeeds and the
returned score lies in `[0, 155]`; 155 (velocity 40 + amount 30 + new
location 25 + high-risk country 35 + unusual hour 10 + new device 15) is
the attained upper bound, not 100. -/
theorem analyzeTransaction_score_bounds (env : Env) (req : FraudCheckRequest) :
    ∃ r, analyzeTransaction env req = .ok r ∧ 0 ≤ r.score ∧ r.score ≤ 155 := by
  refine ⟨_, analyzeTransaction_eq env req, ?_⟩
  exact pipelineScore_bounds env req

/-- C2 (counterexample): with a blacklist hit at hour 3 the returned score
is 110, not exactly 100 — the time-pattern rule runs after the blacklist
override and still adds its contribution. -/
theorem blacklist_score_not_exactly_100 :
    envBlacklisted.isBlacklisted reqStd.customerEmail reqStd.cardLast4 = .ok true ∧
      ¬ (∀ r, analyzeTransaction envBlacklisted reqStd = .ok r → r.score = 100) := by
  refine ⟨rfl, ?_⟩
  intro h
  have heq := analyzeTransaction_eq envBlacklisted reqStd
  have hb : pipelineScore envBlacklisted reqStd = 100 := h _ heq
  have h110 : pipelineScore envBlacklisted reqStd = 110 := rfl
  omega

/-- C2 (amended): a successful blacklist lookup reporting a hit forces the
final score to `100 + timeDelta + deviceDelta` (at least 100: the
time-pattern and device rules run after the blacklist override and still
add their contributions), the decision is `block`, and the flags appended
by the other rules — before and after the blacklist — all remain in the
response. -/
theorem blacklist_forces_block (env : Env) (req : FraudCheckRequest)
    (hb : env.isBlacklisted req.customerEmail req.cardLast4 = .ok true) :
    ∃ r, analyzeTransaction env req = .ok r ∧
      r.score = 100 + timeDelta env + deviceDelta env req ∧
      100 ≤ r.score ∧
      r.decision = .block ∧
      "blacklisted" ∈ r.flags ∧
      (∀ f ∈ velocityFlags env req ++ amountFlags req ++ geoFlags env req,
        f ∈ r.flags) ∧
      (∀ f ∈ timeFlags env ++ deviceFlags env req, f ∈ r.flags) := by
  have hhit : blacklistHit env req = true := by
    unfold blacklistHit
    rw [hb]
  have hscore : pipelineScore env req = 100 + timeDelta env + deviceDelta env req := by
    unfold pipelineScore
    rw [hhit]
    simp
  have h4 := timeDelta_bounds env
  have h5 := deviceDelta_bounds env req
  have h100 : 100 ≤ pipelineScore env req := by rw [hscore]; omega
  refine ⟨_, analyzeTransaction_eq env req, hscore, h100, ?_, ?_, ?_, ?_⟩
  · unfold makeDecision calculateRiskLevel
    split_ifs <;> first | rfl | omega
  · unfold pipelineFlags blacklistFlags
    rw [hhit]
    simp
  · intro f hf
    unfold pipelineFlags
    simp only [List.mem_append] at hf ⊢
    tauto
  · intro f hf
    unfold pipelineFlags
    simp only [List.mem_append] at hf ⊢
    tauto

/-- C2 (witness): the blacklist override statement at the concrete
blacklisted environment. -/
theorem blacklist_forces_block_witness :
    ∃ r, analyzeTransaction envBlacklisted reqStd = .ok r ∧
      r.score = 100 + timeDelta envBlacklisted + deviceDelta envBlacklisted reqStd ∧
      100 ≤ r.score ∧
      r.decision = .block ∧
      "blacklisted" ∈ r.flags ∧
      (∀ f ∈ velocityFlags envBlacklisted reqStd ++ amountFlags reqStd ++
          geoFlags envBlacklisted reqStd, f ∈ r.flags) ∧
      (∀ f ∈ timeFlags envBlacklisted ++ deviceFlags envBlacklisted reqStd,
        f ∈ r.flags) :=
  blacklist_forces_block envBlacklisted reqStd rfl

/-- C3 (counterexample): when the velocity lookup fails, the returned rule
list contains no `velocity_check` entry at all — the failed evaluator is
not recorded as non-triggered. -/
theorem failed_rule_not_recorded :
    ¬ (∀ r, analyzeTransaction envVelocityDown reqStd = .ok r →
        ∃ rr ∈ r.rules, rr.ruleName = "velocity_check" ∧ rr.triggered = false) := by
  intro h
  obtain ⟨rr, hmem, hname, -⟩ := h _ (analyzeTransaction_eq envVelocityDown reqStd)
  have hall : (pipelineRules envVelocityDown reqStd).all
      (fun x => x.ruleName != "velocity_check") = true := rfl
  rw [List.all_eq_true] at hall
  have hne := hall rr hmem
  simp [hname] at hne

/-- C3 (amended): when one evaluator's lookup fails (here: the velocity
count), the pipeline still produces a decision, the failed evaluator
contributes zero score and is omitted from the rule list (rather than
recorded as non-triggered), and the remaining evaluators still run and
contribute — the score and flags equal those of the same run with a
neutral velocity count. -/
theorem failed_rule_fail_open (env : Env) (req : FraudCheckRequest) (e : String)
    (he : env.countRecentTransactions req.customerEmail = .error e) :
    ∃ r, analyzeTransaction env req = .ok r ∧
      (∀ rr ∈ r.rules, rr.ruleName ≠ "velocity_check") ∧
      (∃ rr ∈ r.rules, rr.ruleName = "amount_threshold") ∧
      (∃ rr ∈ r.rules, rr.ruleName = "time_pattern") ∧
      r.score =
        pipelineScore { env with countRecentTransactions := fun _ => .ok 0 } req ∧
      r.flags =
        pipelineFlags { env with countRecentTransactions := fun _ => .ok 0 } req := by
  have hvd : velocityDelta env req = 0 := by
    unfold velocityDelta
    rw [he]
  have hvf : velocityFlags env req = [] := by
    unfold velocityFlags
    rw [he]
  have hvr : velocityRules env req = [] := by
    unfold velocityRules
    rw [he]
  refine ⟨_, analyzeTransaction_eq env req, ?_, ?_, ?_, ?_, ?_⟩
  · intro rr hmem
    replace hmem : rr ∈ pipelineRules env req := hmem
    unfold pipelineRules at hmem
    rw [hvr] at hmem
    simp only [List.nil_append, List.mem_append] at hmem
    rcases hmem with ((((h1 | h2) | h3) | h4) | h5)
    · rw [name_of_mem_amountRules req rr h1]
      decide
    · rw [name_of_mem_geoRules env req rr h2]
      decide
    · rw [name_of_mem_blacklistRules env req rr h3]
      decide
    · rw [name_of_mem_timeRules env rr h4]
      decide
    · rw [name_of_mem_deviceRules env req rr h5]
      decide
  · obtain ⟨rr, hmem, hname⟩ :
        ∃ rr ∈ amountRules req, rr.ruleName = "amount_threshold" := by
      unfold amountRules
      simp
    refine ⟨rr, ?_, hname⟩
    show rr ∈ pipelineRules env req
    unfold pipelineRules
    simp only [List.mem_append]
    tauto
  · obtain ⟨rr, hmem, hname⟩ :
        ∃ rr ∈ timeRules env, rr.ruleName = "time_pattern" := by
      unfold timeRules
      simp
    refine ⟨rr, ?_, hname⟩
    show rr ∈ pipelineRules env req
    unfold pipelineRules
    simp only [List.mem_append]
    tauto
  · show pipelineScore env req =
      pipelineScore { env with countRecentTransactions := fun _ => .ok 0 } req
    unfold pipelineScore velocityDelta geoDelta amountDelta blacklistHit timeDelta deviceDelta
    rw [he]
    simp
  · show pipelineFlags env req =
      pipelineFlags { env with countRecentTransactions := fun _ => .ok 0 } req
    unfold pipelineFlags velocityFlags geoFlags amountFlags blacklistFlags blacklistHit timeFlags deviceFlags
    rw [he]
    simp

/-- C3 (witness): the fail-open statement at the environment whose
velocity lookup times out. -/
theorem failed_rule_fail_open_witness :
    ∃ r, analyzeTransaction envVelocityDown reqStd = .ok r ∧
      (∀ rr ∈ r.rules, rr.ruleName ≠ "velocity_check") ∧
      (∃ rr ∈ r.rules, rr.ruleName = "amount_threshold") ∧
      (∃ rr ∈ r.rules, rr.ruleName = "time_pattern") ∧
      r.score = pipelineScore
        { envVelocityDown with countRecentTransactions := fun _ => .ok 0 } reqStd ∧
      r.flags = pipelineFlags
        { envVelocityDown with countRecentTransactions := fun _ => .ok 0 } reqStd :=
  failed_rule_fail_open envVelocityDown reqStd "timeout" rfl

/-- Rank of a risk level, used to state monotonicity. -/
def riskRank : RiskLevel → Nat
  | .low => 0
  | .medium => 1
  | .high => 2

/-- C5: the score-to-risk-level-to-decision mapping is total over the
integers 0–100 with the documented thresholds, and a higher score never
yields a lower risk level. -/
theorem riskLevel_decision_mapping (s t : Int)
    (hs0 : 0 ≤ s) (hs100 : s ≤ 100) (hst : s ≤ t) :
    (70 ≤ s → calculateRiskLevel s = .high ∧
      makeDecision (calculateRiskLevel s) s =
        (if 90 ≤ s then .block else .review)) ∧
    (40 ≤ s ∧ s < 70 → calculateRiskLevel s = .medium ∧
      makeDecision (calculateRiskLevel s) s = .review) ∧
    (s < 40 → calculateRiskLevel s = .low ∧
      makeDecision (calculateRiskLevel s) s = .approve) ∧
    riskRank (calculateRiskLevel s) ≤ riskRank (calculateRiskLevel t) := by
  unfold calculateRiskLevel makeDecision riskRank
  split_ifs <;> simp_all <;> omega

/-- C5 (witness): the mapping evaluated at scores 85 and 95. -/
theorem riskLevel_decision_mapping_witness :
    (70 ≤ (85 : Int) → calculateRiskLevel 85 = .high ∧
      makeDecision (calculateRiskLevel 85) 85 =
        (if 90 ≤ (85 : Int) then .block else .review)) ∧
    (40 ≤ (85 : Int) ∧ (85 : Int) < 70 → calculateRiskLevel 85 = .medium ∧
      makeDecision (calculateRiskLevel 85) 85 = .review) ∧
    ((85 : Int) < 40 → calculateRiskLevel 85 = .low ∧
      makeDecision (calculateRiskLevel 85) 85 = .approve) ∧
    riskRank (calculateRiskLevel 85) ≤ riskRank (calculateRiskLevel 95) :=
  riskLevel_decision_mapping 85 95 (by norm_num) (by norm_num) (by norm_num)

/-- C10: `AnalyzeTransaction` never returns an error: whatever the rule
lookups and the persistence call return, it produces a response with a nil
error (its only `return` statement is `return response, nil`). -/
theorem analyzeTransaction_never_errors (env : Env) (req : FraudCheckRequest) :
    ∃ r, analyzeTransaction env req = .ok r :=
  ⟨_, analyzeTransaction_eq env req⟩

/-! ### Fixtures and helper lemmas for the model claims -/

/-- A concrete stand-in activation (constantly one half).  The claims
settled with it do not depend on the activation's values, or instantiate a
statement that quantifies over the activation. -/
def sigHalf : ℚ → ℚ := fun _ => 1/2

/-- The identity shuffle for 33 samples, used for every epoch. -/
def permsIdent : Nat → List Nat := fun _ => List.range 33

/-- The shuffle for 33 samples that swaps positions 0 and 32, used for
every epoch.  It assigns the lone positive sample to the large first
mini-batch instead of the singleton second one. -/
def permsSwap : Nat → List Nat :=
  fun _ => [32] ++ (List.range 31).map (fun k => k + 1) ++ [0]

/-- 33 training samples with no features: gradients stay empty, so the
runs differ only in the bias trajectory. -/
def data33 : List (List (String × ℚ)) := List.replicate 33 []

/-- Labels for `data33`: sample 32 is the only positive. -/
def labels33 : List ℚ := List.replicate 32 0 ++ [1]

theorem trainModel_ok (sig : ℚ → ℚ) (m : MLModel)
    (trainingData : List (List (String × ℚ))) (labels : List ℚ)
    (perms : Nat → List Nat)
    (h0 : trainingData.length ≠ 0) (hl : trainingData.length = labels.length) :
    ∃ r, TrainModel sig m trainingData labels perms = .ok r ∧ r.trained = true := by
  unfold TrainModel
  rw [if_neg]
  · exact ⟨_, rfl, rfl⟩
  · push_neg
    exact ⟨h0, hl⟩

theorem foldl_preserves {β : Type} (g : MLModel → β) (f : MLModel → Nat → MLModel)
    (hf : ∀ m b, g (f m b) = g m) :
    ∀ (bl : List Nat) (m : MLModel), g (bl.foldl f m) = g m := by
  intro bl
  induction bl with
  | nil => intro m; rfl
  | cons b bl ih =>
    intro m
    rw [List.foldl_cons, ih, hf]

theorem runEpoch_learningRate (sig : ℚ → ℚ)
    (trainingData : List (List (String × ℚ))) (labels : List ℚ)
    (batchSize : Nat) (m : MLModel) (indices : List Nat) :
    (runEpoch sig trainingData labels batchSize m indices).learningRate =
      m.learningRate := by
  simp only [runEpoch]
  generalize List.range _ = bl
  induction bl generalizing m with
  | nil => rfl
  | cons b bl ih =>
    rw [List.foldl_cons]
    exact (ih _).trans rfl

theorem runEpoch_version (sig : ℚ → ℚ)
    (trainingData : List (List (String × ℚ))) (labels : List ℚ)
    (batchSize : Nat) (m : MLModel) (indices : List Nat) :
    (runEpoch sig trainingData labels batchSize m indices).version =
      m.version := by
  simp only [runEpoch]
  generalize List.range _ = bl
  induction bl generalizing m with
  | nil => rfl
  | cons b bl ih =>
    rw [List.foldl_cons]
    exact (ih _).trans rfl

theorem trainModel_ok_fields (sig : ℚ → ℚ) (m : MLModel)
    (trainingData : List (List (String × ℚ))) (labels : List ℚ)
    (perms : Nat → List Nat) (r : MLModel)
    (h : TrainModel sig m trainingData labels perms = .ok r) :
    r.trained = true ∧ r.learningRate = m.learningRate ∧ r.version = m.version := by
  unfold TrainModel at h
  split_ifs at h
  rw [Except.ok.injEq] at h
  subst h
  refine ⟨rfl, ?_, ?_⟩
  · show (List.foldl _ m _).learningRate = m.learningRate
    exact foldl_preserves MLModel.learningRate _
      (fun acc e => runEpoch_learningRate _ _ _ _ _ _) _ m
  · show (List.foldl _ m _).version = m.version
    exact foldl_preserves MLModel.version _
      (fun acc e => runEpoch_version _ _ _ _ _ _) _ m

/-! ### Claims about the model -/

/-- C4 (counterexample): a successful training run starting from
`NewMLModel` does not leave the receiver state equal to `NewMLModel` — the
Go method writes the updated weights, bias and `trained` flag into the
model it started from (the embedding returns the receiver's final state),
so a holder of that model observes the change. -/
theorem trainModel_not_copy_on_write :
    ¬ (∀ r, TrainModel sigHalf NewMLModel [[]] [1] permsIdent = .ok r →
        r = NewMLModel) := by
  intro h
  obtain ⟨r, hr, htr⟩ :=
    trainModel_ok sigHalf NewMLModel [[]] [1] permsIdent (by decide) (by decide)
  have heq := h r hr
  rw [heq] at htr
  exact absurd htr (by decide)

/-- C4 (amended): training is in place, not copy-on-write: a valid
`TrainModel` run succeeds and its receiver's final state carries
`trained = true` (with the learning rate and version untouched); the
receiver's state is what changes, no fresh model value is produced for a
caller to install. -/
theorem trainModel_mutates_receiver (sig : ℚ → ℚ) (m : MLModel)
    (trainingData : List (List (String × ℚ))) (labels : List ℚ)
    (perms : Nat → List Nat)
    (h0 : trainingData.length ≠ 0) (hl : trainingData.length = labels.length) :
    ∃ r, TrainModel sig m trainingData labels perms = .ok r ∧
      r.trained = true ∧ r.learningRate = m.learningRate ∧
      r.version = m.version := by
  obtain ⟨r, hr, -⟩ := trainModel_ok sig m trainingData labels perms h0 hl
  exact ⟨r, hr, trainModel_ok_fields sig m trainingData labels perms r hr⟩

/-- C4 (witness): the amended statement at a one-sample training set. -/
theorem trainModel_mutates_receiver_witness :
    ∃ r, TrainModel sigHalf NewMLModel [[]] [1] permsIdent = .ok r ∧
      r.trained = true ∧ r.learningRate = NewMLModel.learningRate ∧
      r.version = NewMLModel.version :=
  trainModel_mutates_receiver sigHalf NewMLModel [[]] [1] permsIdent
    (by decide) (by decide)

/-- C6 (counterexample): loading a corrupt blob does not fall back to the
pretrained default — `LoadModel` returns the decode error. -/
theorem loadModel_corrupt_errors :
    LoadModel ModelFile.corrupt = .error "failed to decode model" := rfl

/-- C6 (amended): a missing blob falls back to the fixed pretrained
default (bias −0.45, trained, all weights non-zero) with no error, an
intact blob reproduces every stored field — but a corrupt blob yields a
decode error instead of the pretrained default. -/
theorem loadModel_fallback (d : ModelData) :
    LoadModel ModelFile.missing = .ok LoadPretrainedModel ∧
    (LoadModel ModelFile.corrupt).isOk = false ∧
    LoadModel (ModelFile.valid d) =
      .ok { weights := d.weights, bias := d.bias,
            learningRate := d.learningRate, trained := d.trained,
            version := d.version } ∧
    LoadPretrainedModel.bias = -0.45 ∧
    LoadPretrainedModel.trained = true ∧
    LoadPretrainedModel.weights.all (fun p => p.2 != 0) = true := by
  refine ⟨rfl, rfl, rfl, rfl, rfl, ?_⟩
  with_unfolding_all rfl

/-- C7 (amended): training is a deterministic function of the model, the
data, the labels and the per-epoch shuffle permutations; two runs coincide
whenever their permutation streams coincide.  The permutations themselves
are drawn from the uncontrolled global `math/rand` source, not seeded per
call. -/
theorem trainModel_perm_determinism (sig : ℚ → ℚ) (m : MLModel)
    (trainingData : List (List (String × ℚ))) (labels : List ℚ)
    (p q : Nat → List Nat) (hpq : ∀ n, p n = q n) :
    TrainModel sig m trainingData labels p =
      TrainModel sig m trainingData labels q := by
  rw [funext hpq]

/-- C7 (witness): the determinism statement instantiated at the 33-sample
set with the identity shuffle stream. -/
theorem trainModel_perm_determinism_witness :
    TrainModel sigHalf NewMLModel data33 labels33 permsIdent =
      TrainModel sigHalf NewMLModel data33 labels33 permsIdent :=
  trainModel_perm_determinism sigHalf NewMLModel data33 labels33
    permsIdent permsIdent (fun _ => rfl)

set_option maxRecDepth 200000 in
/-- C7 (counterexample): two training runs from the same model on the same
data and labels, differing only in the shuffle permutation drawn from the
global source, end with different biases (0 versus −31/32) — training
results are not reproducible across shuffle draws. -/
theorem trainModel_shuffle_dependent :
    TrainModel sigHalf NewMLModel data33 labels33 permsIdent ≠
      TrainModel sigHalf NewMLModel data33 labels33 permsSwap := by
  intro h
  have h1 : (TrainModel sigHalf NewMLModel data33 labels33 permsIdent).map
      MLModel.bias = .ok 0 := by
    with_unfolding_all rfl
  have h2 : (TrainModel sigHalf NewMLModel data33 labels33 permsSwap).map
      MLModel.bias = .ok (-31/32) := by
    with_unfolding_all rfl
  rw [h] at h1
  have h3 : (0 : ℚ) = -31/32 := Except.ok.inj (h1.symm.trans h2)
  norm_num at h3

/-- C9: saving a model and loading the written blob reproduces the
weights, bias, learning rate, trained flag and version exactly (hence
within any floating-point tolerance). -/
theorem saveModel_loadModel_roundtrip (m : MLModel) (t : Int) :
    ∃ m2, LoadModel (ModelFile.valid (SaveModel m t)) = .ok m2 ∧
      m2.weights = m.weights ∧ m2.bias = m.bias ∧
      m2.learningRate = m.learningRate ∧ m2.trained = m.trained ∧
      m2.version = m.version :=
  ⟨m, rfl, rfl, rfl, rfl, rfl, rfl⟩

theorem classify_foldl_sum (sig : ℚ → ℚ) (m : MLModel)
    (l : List (List (String × ℚ) × ℚ)) :
    ∀ acc : Nat × Nat × Nat × Nat,
      (l.foldl (classifyStep sig m) acc).1 +
        (l.foldl (classifyStep sig m) acc).2.1 +
        (l.foldl (classifyStep sig m) acc).2.2.1 +
        (l.foldl (classifyStep sig m) acc).2.2.2 =
      acc.1 + acc.2.1 + acc.2.2.1 + acc.2.2.2 + l.length := by
  induction l with
  | nil => intro acc; simp
  | cons p l ih =>
    intro acc
    rw [List.foldl_cons, ih]
    simp only [classifyStep]
    split_ifs <;> simp <;> omega

theorem confusionCounts_card (sig : ℚ → ℚ) (m : MLModel)
    (testData : List (List (String × ℚ))) (labels : List ℚ) :
    (confusionCounts sig m testData labels).1 +
      (confusionCounts sig m testData labels).2.1 +
      (confusionCounts sig m testData labels).2.2.1 +
      (confusionCounts sig m testData labels).2.2.2 =
    (testData.zip labels).length := by
  unfold confusionCounts
  rw [classify_foldl_sum]
  simp

theorem guardedRatio_bounds (a b : ℕ) :
    0 ≤ (if ((a : ℚ) + (b : ℚ)) > 0 then (a : ℚ) / ((a : ℚ) + (b : ℚ)) else 0) ∧
      (if ((a : ℚ) + (b : ℚ)) > 0 then (a : ℚ) / ((a : ℚ) + (b : ℚ)) else 0) ≤ 1 := by
  split_ifs with h
  · constructor
    · positivity
    · rw [div_le_one h]
      have hb : (0 : ℚ) ≤ (b : ℚ) := by positivity
      linarith
  · norm_num

theorem guardedF1_bounds (p r : ℚ)
    (hp0 : 0 ≤ p) (hp1 : p ≤ 1) (hr0 : 0 ≤ r) (hr1 : r ≤ 1) :
    0 ≤ (if p + r > 0 then 2 * (p * r) / (p + r) else 0) ∧
      (if p + r > 0 then 2 * (p * r) / (p + r) else 0) ≤ 1 := by
  split_ifs with h
  · constructor
    · positivity
    · rw [div_le_one h]
      nlinarith
  · norm_num

/-- C8 (counterexample): on an empty test set, `EvaluateModel` divides
zero by zero for accuracy — the Go result is `NaN` (modelled as `none`),
which lies in no interval, so the accuracy bound fails. -/
theorem evaluateModel_empty_accuracy_nan :
    ¬ ∃ a : ℚ, (EvaluateModel sigHalf NewMLModel [] []).accuracy = some a ∧
        0 ≤ a ∧ a ≤ 1 := by
  rintro ⟨a, ha, -⟩
  have hnone : (EvaluateModel sigHalf NewMLModel [] []).accuracy = none := by
    with_unfolding_all rfl
  rw [hnone] at ha
  exact Option.noConfusion ha

/-- C8 (amended): for a non-empty test set, accuracy, precision, recall
and F1 all lie in `[0, 1]` and precision and recall equal 0 (not `NaN`)
when their denominators are 0; with an empty test set the precision,
recall and F1 guards still apply, but accuracy is a 0/0 `NaN`. -/
theorem evaluateModel_metrics_bounds (sig : ℚ → ℚ) (m : MLModel)
    (testData : List (List (String × ℚ))) (labels : List ℚ)
    (h : testData ≠ []) :
    (∃ a, (EvaluateModel sig m testData labels).accuracy = some a ∧
        0 ≤ a ∧ a ≤ 1) ∧
    (0 ≤ (EvaluateModel sig m testData labels).precision ∧
        (EvaluateModel sig m testData labels).precision ≤ 1) ∧
    (0 ≤ (EvaluateModel sig m testData labels).recallScore ∧
        (EvaluateModel sig m testData labels).recallScore ≤ 1) ∧
    (0 ≤ (EvaluateModel sig m testData labels).f1Score ∧
        (EvaluateModel sig m testData labels).f1Score ≤ 1) ∧
    ((EvaluateModel sig m testData labels).truePositives +
        (EvaluateModel sig m testData labels).falsePositives = 0 →
      (EvaluateModel sig m testData labels).precision = 0) ∧
    ((EvaluateModel sig m testData labels).truePositives +
        (EvaluateModel sig m testData labels).falseNegatives = 0 →
      (EvaluateModel sig m testData labels).recallScore = 0) := by
  have hsum := confusionCounts_card sig m testData labels
  have hzip : (testData.zip labels).length ≤ testData.length := by
    rw [List.length_zip]
    omega
  have hn : 0 < testData.length := List.length_pos.mpr h
  simp only [EvaluateModel]
  set c := confusionCounts sig m testData labels with hc
  refine ⟨?_, guardedRatio_bounds c.1 c.2.1, guardedRatio_bounds c.1 c.2.2.2,
      ?_, ?_, ?_⟩
  · have hQ : ((testData.length : ℚ)) ≠ 0 := by
      exact_mod_cast hn.ne.symm
    refine ⟨((c.1 : ℚ) + (c.2.2.1 : ℚ)) / (testData.length : ℚ), ?_, ?_, ?_⟩
    · unfold goDiv
      rw [if_neg hQ]
    · positivity
    · rw [div_le_one (by exact_mod_cast hn)]
      have hle : c.1 + c.2.2.1 ≤ testData.length := by omega
      exact_mod_cast hle
  · obtain ⟨hp0, hp1⟩ := guardedRatio_bounds c.1 c.2.1
    obtain ⟨hr0, hr1⟩ := guardedRatio_bounds c.1 c.2.2.2
    exact guardedF1_bounds _ _ hp0 hp1 hr0 hr1
  · intro h0
    have h1 : c.1 = 0 := by omega
    have h2 : c.2.1 = 0 := by omega
    rw [h1, h2]
    norm_num
  · intro h0
    have h1 : c.1 = 0 := by omega
    have h2 : c.2.2.2 = 0 := by omega
    rw [h1, h2]
    norm_num

/-- C8 (witness): the amended statement at a singleton test set. -/
theorem evaluateModel_metrics_bounds_witness :
    (∃ a, (EvaluateModel sigHalf NewMLModel [[]] [0]).accuracy = some a ∧
        0 ≤ a ∧ a ≤ 1) ∧
    (0 ≤ (EvaluateModel sigHalf NewMLModel [[]] [0]).precision ∧
        (EvaluateModel sigHalf NewMLModel [[]] [0]).precision ≤ 1) ∧
    (0 ≤ (EvaluateModel sigHalf NewMLModel [[]] [0]).recallScore ∧
        (EvaluateModel sigHalf NewMLModel [[]] [0]).recallScore ≤ 1) ∧
    (0 ≤ (EvaluateModel sigHalf NewMLModel [[]] [0]).f1Score ∧
        (EvaluateModel sigHalf NewMLModel [[]] [0]).f1Score ≤ 1) ∧
    ((EvaluateModel sigHalf NewMLModel [[]] [0]).truePositives +
        (EvaluateModel sigHalf NewMLModel [[]] [0]).falsePositives = 0 →
      (EvaluateModel sigHalf NewMLModel [[]] [0]).precision = 0) ∧
    ((EvaluateModel sigHalf NewMLModel [[]] [0]).truePositives +
        (EvaluateModel sigHalf NewMLModel [[]] [0]).falseNegatives = 0 →
      (EvaluateModel sigHalf NewMLModel [[]] [0]).recallScore = 0) :=
  evaluateModel_metrics_bounds sigHalf NewMLModel [[]] [0] (by decide)

end GlobalPay
